import Mathlib

/-!
Shallow embedding of the control-plane logic of the kafka-k8s-operator
charm: the cluster state aggregator (`src/core/cluster.py`), the
Kubernetes service manager (`src/managers/k8s.py`) and the TLS material
manager (`src/managers/tls.py`).

Python strings are modelled by `String`; Python's code-point
lexicographic string comparison (used by `sorted`) is embedded as a
structural recursion on the character list, so that every definition
evaluates by kernel reduction.
-/

/-! ## Python string primitives -/

/-- Python's lexicographic code-point comparison on character lists:
`a <= b` in Python string order. -/
def charListLe : List Char → List Char → Bool
  | [], _ => true
  | _ :: _, [] => false
  | a :: as, b :: bs =>
    if a.toNat < b.toNat then true
    else if b.toNat < a.toNat then false
    else charListLe as bs

/-- Python's `a <= b` on strings (code-point lexicographic order). -/
def pyLe (a b : String) : Bool := charListLe a.data b.data

/-- The ordering relation used by Python's `sorted` on strings. -/
def pyLeR (a b : String) : Prop := pyLe a b = true

instance : DecidableRel pyLeR := fun a b => instDecidableEqBool (pyLe a b) true

/-- Python's `sorted` on a list of strings: a stable sort by code-point
lexicographic order (embedded as insertion sort, which is stable). -/
def pysorted (l : List String) : List String := List.insertionSort pyLeR l

/-- Does `needle` occur at the start of `haystack`? (Helper for Python's
substring test `needle in haystack`.) -/
def charPrefix : List Char → List Char → Bool
  | [], _ => true
  | _ :: _, [] => false
  | a :: as, b :: bs => (a.toNat == b.toNat) && charPrefix as bs

/-- Does `needle` occur anywhere in `haystack`? -/
def charSubstr (needle : List Char) : List Char → Bool
  | [] => charPrefix needle []
  | c :: rest => charPrefix needle (c :: rest) || charSubstr needle rest

/-- Python's substring test `pat in s`. -/
def containsSub (s pat : String) : Bool := charSubstr pat.data s.data

/-- Python's `s.split(sep)` for a one-character separator. -/
def pySplit (sep : Char) : List Char → List (List Char)
  | [] => [[]]
  | c :: rest =>
    let r := pySplit sep rest
    if c = sep then [] :: r
    else
      match r with
      | [] => [[c]]
      | h :: t => (c :: h) :: t

/-- Python's `s.replace(pat, repl)` (all non-overlapping occurrences,
left to right), with explicit fuel for structural recursion; fuel equal
to the haystack length always suffices. -/
def pyReplaceFuel (pat repl : List Char) : Nat → List Char → List Char
  | 0, l => l
  | _ + 1, [] => []
  | fuel + 1, c :: rest =>
    if pat.length ≠ 0 && charPrefix pat (c :: rest) then
      repl ++ pyReplaceFuel pat repl fuel (List.drop (pat.length - 1) rest)
    else
      c :: pyReplaceFuel pat repl fuel rest

/-- Python's `s.replace(pat, repl)` on strings. -/
def pyReplace (s pat repl : String) : String :=
  String.mk (pyReplaceFuel pat.data repl.data s.data.length s.data)

/-- Python truthiness of an optional string (`None` and `""` are falsy). -/
def pyTruthyStr : Option String → Bool
  | none => false
  | some s => !(s == "")

/-- Python set insertion, modelled on a duplicate-free list. -/
def pyInsert (x : String) (l : List String) : List String :=
  if x ∈ l then l else l ++ [x]

/-! ## Literals (`src/literals.py` is truncated in the tree) -/

/-- Security mechanisms (`AuthMechanism`).
Modelled from the spec: the authentication/encryption modes named by the
spec are SASL-over-plaintext and SASL-over-TLS; the defining literal in
`literals.py` is absent from the tree. -/
inductive AuthMechanism where
  | SASL_PLAINTEXT
  | SASL_SSL
deriving DecidableEq

/-- Modelled from the spec: `SECURITY_PROTOCOL_PORTS` in `literals.py`
(absent from the tree) associates with each security mechanism the single
port interpolated into a bootstrap entry by `ClusterState.bootstrap_server`;
the concrete numbers are representative, the claims do not depend on them. -/
def securityProtocolPort : AuthMechanism → Nat
  | .SASL_PLAINTEXT => 9092
  | .SASL_SSL => 9093

/-- Charm status values (`literals.Status`), restricted to the ones the
readiness chain in `ClusterState.ready_to_start` can produce. -/
inductive Status where
  | NO_PEER_RELATION
  | ZK_NOT_RELATED
  | ZK_NO_DATA
  | ZK_TLS_MISMATCH
  | NO_CERT
  | NO_BROKER_CREDS
  | ACTIVE
deriving DecidableEq

/-! ## Cluster state (`src/core/cluster.py`) -/

/-- One peer broker as seen by `ClusterState.brokers`: its internal
address and its precomputed external bootstrap entry
(`KafkaBroker.bootstrap_server_external`). -/
structure BrokerR where
  internalAddress : String
  bootstrapServerExternal : String
deriving DecidableEq

/-- One client relation as consumed by `ClusterState.super_users`:
its relation id, whether `relation.app` is set, and the
`extra-user-roles` databag field (defaulted to `""`). -/
structure ClientRel where
  id : Nat
  appPresent : Bool
  extraUserRoles : String
deriving DecidableEq

/-- The snapshot of relation and databag state that `ClusterState`
reads: peer/ZooKeeper relation presence, ZooKeeper connection and TLS
flags, cluster TLS flag, the local unit's certificate, internal
credentials presence, the `expose-nodeport` config, the broker set, the
client relations, and the cluster app databag (`cluster.relation_data`,
holding the per-client generated passwords). -/
structure ClusterStateR where
  peerRelation : Bool
  zkRelation : Bool
  zkConnected : Bool
  tlsEnabled : Bool
  zkTls : Bool
  certificate : Option String
  internalUserCredentials : Bool
  exposeNodeport : Bool
  brokers : List BrokerR
  clients : List ClientRel
  relationData : List (String × String)
deriving DecidableEq

/-- `ClusterState.ready_to_start`: the ordered readiness decision chain. -/
def ready_to_start (s : ClusterStateR) : Status :=
  if !s.peerRelation then .NO_PEER_RELATION
  else if !s.zkRelation then .ZK_NOT_RELATED
  else if !s.zkConnected then .ZK_NO_DATA
  else if s.tlsEnabled ^^ s.zkTls then .ZK_TLS_MISMATCH
  else if s.tlsEnabled && !pyTruthyStr s.certificate then .NO_CERT
  else if !s.internalUserCredentials then .NO_BROKER_CREDS
  else .ACTIVE

/-- `ClusterState.security_protocol`: SASL_SSL only when cluster TLS is
enabled and the local unit already holds a certificate. -/
def security_protocol (s : ClusterStateR) : AuthMechanism :=
  if s.tlsEnabled && pyTruthyStr s.certificate then .SASL_SSL else .SASL_PLAINTEXT

/-- The databag user name for a client relation (`f"relation-{relation.id}"`). -/
def clientUserName (r : ClientRel) : String := "relation-" ++ toString r.id

/-- The admission test of `ClusterState.super_users` for one client
relation: `relation.app` set, `"admin" in extra_user_roles`, and a
password present in the cluster databag. -/
def superUserCond (rd : List (String × String)) (r : ClientRel) : Bool :=
  r.appPresent && containsSub r.extraUserRoles "admin"
    && (rd.lookup (clientUserName r)).isSome

/-- The set of super-user names built by `ClusterState.super_users`
before formatting: the internal users plus every admitted client
relation user (a Python `set`, modelled as a duplicate-free list). -/
def superUserList (internalUsers : List String) (s : ClusterStateR) : List String :=
  s.clients.foldl
    (fun acc r => if superUserCond s.relationData r then pyInsert (clientUserName r) acc else acc)
    (internalUsers.foldl (fun acc u => pyInsert u acc) [])

/-- `ClusterState.super_users`: the semicolon-joined sorted list of
`User:`-prefixed super-user names. `internalUsers` stands for
`literals.INTERNAL_USERS`, whose definition is truncated from the tree. -/
def super_users (internalUsers : List String) (s : ClusterStateR) : String :=
  String.intercalate ";" (pysorted ((superUserList internalUsers s).map (fun u => "User:" ++ u)))

/-- `ClusterState.bootstrap_servers_external`: comma-joined sorted
external bootstrap entries of all brokers. -/
def bootstrap_servers_external (s : ClusterStateR) : String :=
  String.intercalate "," (pysorted (s.brokers.map (fun b => b.bootstrapServerExternal)))

/-- The internal bootstrap entry rendered for one broker by
`ClusterState.bootstrap_server`. -/
def internalBootstrapEntry (s : ClusterStateR) (b : BrokerR) : String :=
  b.internalAddress ++ ":" ++ toString (securityProtocolPort (security_protocol s))

/-- `ClusterState.bootstrap_server`: empty without a peer relation;
the external list when `expose-nodeport` is set; otherwise the
comma-joined sorted internal `host:port` entries. -/
def bootstrap_server (s : ClusterStateR) : String :=
  if !s.peerRelation then ""
  else if s.exposeNodeport then bootstrap_servers_external s
  else String.intercalate "," (pysorted (s.brokers.map (internalBootstrapEntry s)))

/-! ## K8s manager (`src/managers/k8s.py`) -/

/-- `K8sManager.bootstrap_node_port`: the fixed node port of the
bootstrap NodePort service for a unit. -/
def bootstrap_node_port (unitId : Nat) : Nat := 31000 + unitId

/-- Modelled from the spec: the port formula the spec ascribes to
`NodePortAllocator.port` — `BASE + APP_OFFSET + unitOrdinal*K +
mechanismOffset(mechanism)` with `BASE = 30000`, `APP_OFFSET = 1000`,
`K = 10` and `mechanismOffset` the index in the ordered mechanism list.
Stated here only to be compared with `bootstrap_node_port`. -/
def specNodePort (unitOrdinal mechanismIdx : Nat) : Nat :=
  30000 + 1000 + unitOrdinal * 10 + mechanismIdx

/-- A NodePort's port entry as read back by `K8sManager.node_port`. -/
structure ServicePortK8s where
  nodePort : Int
deriving DecidableEq

/-- A Service spec as read back by `K8sManager.node_port`; lightkube
makes `ports` optional. -/
structure ServiceSpecK8s where
  ports : Option (List ServicePortK8s)
deriving DecidableEq

/-- A Service object as read back by `K8sManager.service`; lightkube
makes `spec` optional. -/
structure ServiceK8s where
  spec : Option ServiceSpecK8s
deriving DecidableEq

/-- The outcome of the cluster-API lookup inside `K8sManager.service`:
either the Service object or an `ApiError` raised by `client.get`. -/
inductive LookupOutcome where
  | found (svc : ServiceK8s)
  | apiError
deriving DecidableEq

/-- `K8sManager.service`: swallows the `ApiError` of the lookup and
returns `None` in that case. -/
def serviceProp : LookupOutcome → Option ServiceK8s
  | .found svc => some svc
  | .apiError => none

/-- Python truthiness of the optional `ports` list (`None` and `[]` are
falsy). -/
def pyTruthyPorts : Option (List ServicePortK8s) → Bool
  | none => false
  | some l => !l.isEmpty

/-- `K8sManager.node_port`: `-1` when the Service does not resolve,
an exception when it resolves but has no spec or no ports, otherwise the
first port's `nodePort`. -/
def node_port (lr : LookupOutcome) : Except String Int :=
  match serviceProp lr with
  | none => .ok (-1)
  | some svc =>
    match svc.spec with
    | none => .error "Could not find Service spec or ports"
    | some sp =>
      if !pyTruthyPorts sp.ports then .error "Could not find Service spec or ports"
      else .ok (((sp.ports.getD []).headD ⟨0⟩).nodePort)

/-- The structured responses of `client.apply` that the reconciliation
of the exposure Services distinguishes: success, a permission-denied
`ApiError`, a node-port-already-allocated `ApiError` carrying the port
of the existing allocation, or any other failure. -/
inductive ApplyOutcome where
  | ok
  | forbidden
  | portConflict (existing : Nat)
  | otherError
deriving DecidableEq

/-- How one reconciliation attempt ends: the apply is treated as
satisfied, the condition is logged and reported without raising, or the
error is raised out of the pass. -/
inductive ReconcileResult where
  | applied
  | reported
  | raisedError
deriving DecidableEq

/-- Modelled from the spec: the conflict handling wrapped around
`K8sManager.create_nodeport_service` / `create_bootstrap_service` by
their caller (absent from the tree) — a permission-denial response is
non-fatal and merely reported; a port-collision on create is swallowed
only when the already-existing allocation matches the intended port,
otherwise it is an error; any other failure is an error. -/
def reconcile_service (intendedPort : Nat) (o : ApplyOutcome) : ReconcileResult :=
  match o with
  | .ok => .applied
  | .forbidden => .reported
  | .portConflict existing => if existing = intendedPort then .applied else .raisedError
  | .otherError => .raisedError

/-! ## TLS manager (`src/managers/tls.py`) -/

/-- The outcome of one `workload.exec` call: success, or a raised
`CalledProcessError`/`ExecError` carrying its optional stdout. -/
inductive ExecOutcome where
  | ok
  | fail (stdout : Option String)
deriving DecidableEq

/-- How a TLS provisioning step ends: a normal return, or re-raising the
exec failure with its stdout. -/
inductive TLSResult where
  | success
  | raised (stdout : Option String)
deriving DecidableEq

/-- The guard `e.stdout and "already exists" in e.stdout` of
`TLSManager.set_truststore` / `import_cert`. -/
def alreadyExistsSig : Option String → Bool
  | none => false
  | some s => (!(s == "")) && containsSub s "already exists"

/-- The stdout of the first failing exec of a `try` block, if any. -/
def firstFailure : List ExecOutcome → Option (Option String)
  | [] => none
  | .ok :: rest => firstFailure rest
  | .fail out :: _ => some out

/-- `TLSManager.set_truststore`: runs keytool import, chown and chmod in
one `try`; a failure whose stdout shows the "already exists" signature
returns normally, any other failure is re-raised. -/
def set_truststore (keytoolExec chownExec chmodExec : ExecOutcome) : TLSResult :=
  match firstFailure [keytoolExec, chownExec, chmodExec] with
  | none => .success
  | some out => if alreadyExistsSig out then .success else .raised out

/-- `TLSManager.import_cert`: runs the keytool import in a `try`; a
failure whose stdout shows the "already exists" signature returns
normally, any other failure is re-raised. -/
def import_cert (keytoolExec : ExecOutcome) : TLSResult :=
  match firstFailure [keytoolExec] with
  | none => .success
  | some out => if alreadyExistsSig out then .success else .raised out

/-- The deployment substrate (`literals.SUBSTRATE`). -/
inductive Substrate where
  | vm
  | k8s
deriving DecidableEq

/-- The inputs `TLSManager.build_sans` reads: the substrate, the unit's
host and name (`unit_broker.host`, `unit_broker.unit.name`), its ordinal
(`unit_broker.unit_id`), the machine FQDN (`socket.getfqdn()`), the
peer-relation bind address, the node IP (`K8sManager.node_ip`), the
unit's internal address, and the `certificate_extra_sans` config. -/
structure SanInput where
  substrate : Substrate
  host : String
  unitName : String
  unitId : Nat
  fqdn : String
  bindAddress : String
  nodeIp : String
  internalAddress : String
  extraSansConfig : Option String
deriving DecidableEq

/-- The SAN dict returned by `TLSManager.build_sans`. -/
structure Sans where
  sans_ip : List String
  sans_dns : List String
deriving DecidableEq

/-- `TLSManager._build_extra_sans`: split the config on commas and
substitute the unit ordinal for each `{unit}` placeholder. -/
def build_extra_sans (i : SanInput) : List String :=
  let extra := i.extraSansConfig.getD ""
  if extra = "" then []
  else (pySplit ',' extra.data).map
    (fun part => pyReplace (String.mk part) "{unit}" (toString i.unitId))

/-- `internal_address.split(".")[0]`. -/
def firstLabel (s : String) : String := String.mk ((pySplit '.' s.data).headD [])

/-- `TLSManager.build_sans`: on the vm substrate the raw host / unit
name / FQDN / extra names; on the k8s substrate the sorted bind and node
addresses and the sorted pod DNS names plus extra names. -/
def build_sans (i : SanInput) : Sans :=
  match i.substrate with
  | .vm =>
    { sans_ip := [i.host]
      sans_dns := [i.unitName, i.fqdn] ++ build_extra_sans i }
  | .k8s =>
    { sans_ip := pysorted [i.bindAddress, i.nodeIp]
      sans_dns := pysorted
        ([firstLabel i.internalAddress, i.internalAddress, i.fqdn] ++ build_extra_sans i) }

/-! ## Order lemmas for the embedded Python string comparison -/

theorem charListLe_total : ∀ a b : List Char, charListLe a b = true ∨ charListLe b a = true
  | [], _ => Or.inl rfl
  | _ :: _, [] => Or.inr rfl
  | a :: as, b :: bs => by
    by_cases h1 : a.toNat < b.toNat
    · left
      simp [charListLe, h1]
    · by_cases h2 : b.toNat < a.toNat
      · right
        simp [charListLe, h2]
      · have ih := charListLe_total as bs
        simpa [charListLe, h1, h2] using ih

theorem charListLe_trans :
    ∀ a b c : List Char,
      charListLe a b = true → charListLe b c = true → charListLe a c = true
  | [], _, _, _, _ => rfl
  | _ :: _, [], _, h1, _ => by simp [charListLe] at h1
  | _ :: _, _ :: _, [], _, h2 => by simp [charListLe] at h2
  | a :: as, b :: bs, c :: cs, h1, h2 => by
    rcases Nat.lt_trichotomy a.toNat b.toNat with hab | hab | hab
    · rcases Nat.lt_trichotomy b.toNat c.toNat with hbc | hbc | hbc
      · simp [charListLe, Nat.lt_trans hab hbc]
      · simp [charListLe, hbc ▸ hab]
      · simp [charListLe, Nat.lt_asymm hbc, hbc] at h2
    · rcases Nat.lt_trichotomy b.toNat c.toNat with hbc | hbc | hbc
      · simp [charListLe, hab ▸ hbc]
      · have ha : ¬ a.toNat < b.toNat := by omega
        have hb : ¬ b.toNat < c.toNat := by omega
        have hac : ¬ a.toNat < c.toNat := by omega
        have hca : ¬ c.toNat < a.toNat := by omega
        simp only [charListLe, if_neg ha, if_neg (by omega : ¬ b.toNat < a.toNat)] at h1
        simp only [charListLe, if_neg hb, if_neg (by omega : ¬ c.toNat < b.toNat)] at h2
        simp only [charListLe, if_neg hac, if_neg hca]
        exact charListLe_trans as bs cs h1 h2
      · simp [charListLe, Nat.lt_asymm hbc, hbc] at h2
    · simp [charListLe, Nat.lt_asymm hab, hab] at h1

instance : IsTotal String pyLeR := ⟨fun a b => charListLe_total a.data b.data⟩

instance : IsTrans String pyLeR :=
  ⟨fun a b c h1 h2 => charListLe_trans a.data b.data c.data h1 h2⟩

theorem pysorted_sorted (l : List String) : List.Sorted pyLeR (pysorted l) :=
  List.sorted_insertionSort pyLeR l

theorem pysorted_perm (l : List String) : (pysorted l).Perm l :=
  List.perm_insertionSort pyLeR l

theorem pyInsert_mem (x y : String) (l : List String) :
    x ∈ pyInsert y l ↔ x = y ∨ x ∈ l := by
  unfold pyInsert
  split
  · rename_i hy
    constructor
    · exact Or.inr
    · rintro (rfl | hx)
      · exact hy
      · exact hx
  · simp [List.mem_append, or_comm]

theorem mem_foldl_pyInsert (f : ClientRel → String) (cond : ClientRel → Bool) :
    ∀ (clients : List ClientRel) (init : List String) (x : String),
      x ∈ clients.foldl (fun acc r => if cond r then pyInsert (f r) acc else acc) init ↔
        x ∈ init ∨ ∃ r, r ∈ clients ∧ cond r = true ∧ x = f r
  | [], init, x => by simp
  | r :: rest, init, x => by
    simp only [List.foldl_cons]
    rw [mem_foldl_pyInsert f cond rest]
    by_cases hc : cond r
    · simp only [hc, if_true, pyInsert_mem]
      constructor
      · rintro ((rfl | hx) | ⟨r', hr', hc', rfl⟩)
        · exact Or.inr ⟨r, List.mem_cons_self r rest, hc, rfl⟩
        · exact Or.inl hx
        · exact Or.inr ⟨r', List.mem_cons_of_mem r hr', hc', rfl⟩
      · rintro (hx | ⟨r', hr', hc', rfl⟩)
        · exact Or.inl (Or.inr hx)
        · rcases List.mem_cons.mp hr' with rfl | hr'
          · exact Or.inl (Or.inl rfl)
          · exact Or.inr ⟨r', hr', hc', rfl⟩
    · simp only [hc, if_false]
      constructor
      · rintro (hx | ⟨r', hr', hc', rfl⟩)
        · exact Or.inl hx
        · exact Or.inr ⟨r', List.mem_cons_of_mem r hr', hc', rfl⟩
      · rintro (hx | ⟨r', hr', hc', rfl⟩)
        · exact Or.inl hx
        · rcases List.mem_cons.mp hr' with rfl | hr'
          · exact absurd hc' (by simpa using hc)
          · exact Or.inr ⟨r', hr', hc', rfl⟩

theorem mem_foldl_pyInsert_init :
    ∀ (users init : List String) (x : String),
      x ∈ users.foldl (fun acc u => pyInsert u acc) init ↔ x ∈ init ∨ x ∈ users
  | [], init, x => by simp
  | u :: rest, init, x => by
    simp only [List.foldl_cons]
    rw [mem_foldl_pyInsert_init rest]
    simp only [pyInsert_mem, List.mem_cons]
    tauto

theorem mem_superUserList (iu : List String) (s : ClusterStateR) (x : String) :
    x ∈ superUserList iu s ↔
      x ∈ iu ∨ ∃ r, r ∈ s.clients ∧ superUserCond s.relationData r = true ∧ x = clientUserName r := by
  unfold superUserList
  rw [mem_foldl_pyInsert, mem_foldl_pyInsert_init]
  simp

/-! ## Claim theorems -/

/-- C1 (counterexample): the spec formula `BASE + APP_OFFSET +
unitOrdinal*K + mechanismOffset` with `K = 10` gives 31011 at ordinal 1
and mechanism index 1, but `K8sManager.bootstrap_node_port` returns
31001 there: the code's port ignores the mechanism and advances by 1 per
ordinal, not 10. -/
theorem bootstrap_node_port_ctrex :
    bootstrap_node_port 1 = 31001 ∧ specNodePort 1 1 = 31011 ∧
      bootstrap_node_port 1 ≠ specNodePort 1 1 := by
  decide

/-- C1 (amended): for every unit ordinal the bootstrap node port equals
`30000 + 1000 + unitOrdinal` (so 31001 at ordinal 1), independently of
the security mechanism (the code takes none), and the mapping is
injective over ordinals. -/
theorem bootstrap_node_port_spec :
    (∀ o : Nat, bootstrap_node_port o = 30000 + 1000 + o)
    ∧ (∀ o o' : Nat, bootstrap_node_port o = bootstrap_node_port o' → o = o')
    ∧ bootstrap_node_port 1 = 31001 := by
  refine ⟨fun o => by unfold bootstrap_node_port; omega,
    fun o o' h => by unfold bootstrap_node_port at h; omega, rfl⟩

/-- C1 (witness): the injectivity conjunct applied at ordinal 3. -/
theorem bootstrap_node_port_spec_witness :
    bootstrap_node_port 3 = bootstrap_node_port 3 ∧ (3 : Nat) = 3 :=
  ⟨rfl, bootstrap_node_port_spec.2.1 3 3 rfl⟩

/-- C2: with no peer relation, `ready_to_start` returns
`NO_PEER_RELATION` whatever the other fields hold. -/
theorem ready_to_start_no_peer (s : ClusterStateR) (h : s.peerRelation = false) :
    ready_to_start s = Status.NO_PEER_RELATION := by
  simp [ready_to_start, h]

/-- C2 (witness): a state with every other prerequisite satisfied
(ZooKeeper related, connected, certificate present, credentials
generated) still evaluates to `NO_PEER_RELATION`. -/
theorem ready_to_start_no_peer_witness :
    (ClusterStateR.mk false true true true true (some "cert") true false [] [] []).peerRelation
        = false
    ∧ ready_to_start (ClusterStateR.mk false true true true true (some "cert") true false [] [] [])
        = Status.NO_PEER_RELATION :=
  ⟨rfl, ready_to_start_no_peer _ rfl⟩

/-- C3: with the peer relation present, ZooKeeper related and connected,
and exactly one of the two TLS flags enabled, `ready_to_start` returns
the TLS-mismatch status, regardless of certificate and credentials: the
mismatch check precedes the certificate and credential checks. -/
theorem ready_to_start_tls_mismatch (s : ClusterStateR) (hp : s.peerRelation = true)
    (hz : s.zkRelation = true) (hc : s.zkConnected = true)
    (hx : (s.tlsEnabled ^^ s.zkTls) = true) :
    ready_to_start s = Status.ZK_TLS_MISMATCH := by
  simp [ready_to_start, hp, hz, hc, hx]

/-- C3 (witness): cluster TLS enabled, ZooKeeper TLS disabled, with the
certificate present and internal credentials generated — the result is
still the TLS-mismatch status. -/
theorem ready_to_start_tls_mismatch_witness :
    pyTruthyStr (ClusterStateR.mk true true true true false (some "cert") true false [] [] []).certificate
        = true
    ∧ (ClusterStateR.mk true true true true false (some "cert") true false [] [] []).internalUserCredentials
        = true
    ∧ ready_to_start (ClusterStateR.mk true true true true false (some "cert") true false [] [] [])
        = Status.ZK_TLS_MISMATCH :=
  ⟨rfl, rfl, ready_to_start_tls_mismatch _ rfl rfl rfl rfl⟩

/-- C4: `security_protocol` is SASL_SSL exactly when cluster TLS is
enabled and the local unit holds a (truthy) certificate, and is
SASL_PLAINTEXT in every other case. -/
theorem security_protocol_spec (s : ClusterStateR) :
    (security_protocol s = AuthMechanism.SASL_SSL ↔
      s.tlsEnabled = true ∧ pyTruthyStr s.certificate = true)
    ∧ (¬(s.tlsEnabled = true ∧ pyTruthyStr s.certificate = true) →
      security_protocol s = AuthMechanism.SASL_PLAINTEXT) := by
  by_cases h1 : s.tlsEnabled <;> by_cases h2 : pyTruthyStr s.certificate <;>
    simp [security_protocol, h1, h2]

/-- C4 (witness): with TLS enabled and a certificate present the result
is SASL_SSL; with TLS enabled but no certificate it is SASL_PLAINTEXT. -/
theorem security_protocol_spec_witness :
    security_protocol (ClusterStateR.mk true true true true true (some "cert") true false [] [] [])
        = AuthMechanism.SASL_SSL
    ∧ security_protocol (ClusterStateR.mk true true true true true none true false [] [] [])
        = AuthMechanism.SASL_PLAINTEXT :=
  ⟨(security_protocol_spec _).1.mpr ⟨rfl, rfl⟩,
    (security_protocol_spec _).2 (by decide)⟩

/-- C5 (counterexample): `build_sans` output is not always sorted and
deduplicated — on the vm substrate the DNS list keeps input order
(`"kafka/1"` before `"a-host"` is unsorted), and on the k8s substrate a
bind address equal to the node IP leaves a duplicate in the IP list. -/
theorem build_sans_ctrex :
    ¬ List.Sorted pyLeR
        (build_sans
          (SanInput.mk Substrate.vm "10.1.1.5" "kafka/1" 1 "a-host" "" "" "" none)).sans_dns
    ∧ ¬ (build_sans
          (SanInput.mk Substrate.k8s "" "" 0 "fqdn.example" "10.1.1.5" "10.1.1.5"
            "kafka-0.kafka-endpoints" none)).sans_ip.Nodup := by
  decide

/-- C5 (amended): on the k8s substrate, `build_sans` returns IP and DNS
lists that are lexicographically sorted (duplicates may remain, and the
vm-substrate lists keep construction order), and two calls with
identical inputs return identical output. -/
theorem build_sans_sorted_k8s (i : SanInput) (hk : i.substrate = Substrate.k8s) :
    List.Sorted pyLeR (build_sans i).sans_ip
    ∧ List.Sorted pyLeR (build_sans i).sans_dns
    ∧ ∀ j : SanInput, j = i → build_sans j = build_sans i := by
  obtain ⟨sub, host, un, uid, fq, ba, ni, ia, ex⟩ := i
  cases hk
  exact ⟨pysorted_sorted _, pysorted_sorted _, fun j hj => by rw [hj]⟩

/-- C5 (witness): a concrete k8s-substrate input, with extra names given
out of order and a `{unit}` placeholder, yields sorted IP and DNS lists
and a reproducible output. -/
theorem build_sans_sorted_k8s_witness :
    (SanInput.mk Substrate.k8s "" "" 2 "fq.example" "10.0.0.9" "10.0.0.4" "kafka-2.ep"
        (some "zzz.example,extra-{unit}.example")).substrate = Substrate.k8s
    ∧ List.Sorted pyLeR
        (build_sans
          (SanInput.mk Substrate.k8s "" "" 2 "fq.example" "10.0.0.9" "10.0.0.4" "kafka-2.ep"
            (some "zzz.example,extra-{unit}.example"))).sans_ip
    ∧ List.Sorted pyLeR
        (build_sans
          (SanInput.mk Substrate.k8s "" "" 2 "fq.example" "10.0.0.9" "10.0.0.4" "kafka-2.ep"
            (some "zzz.example,extra-{unit}.example"))).sans_dns :=
  ⟨rfl, (build_sans_sorted_k8s _ rfl).1, (build_sans_sorted_k8s _ rfl).2.1⟩

/-- C6: a client relation's user is in the super-user set exactly when
its `extra-user-roles` contains `"admin"` and a password exists for it
in the cluster databag; the internal users are always included; and the
output is the semicolon-joined, sorted list of the `User:`-prefixed
members of that set. -/
theorem super_users_spec (iu : List String) (s : ClusterStateR) (r : ClientRel)
    (hr : r ∈ s.clients) (happ : r.appPresent = true)
    (hni : clientUserName r ∉ iu)
    (huniq : ∀ r' ∈ s.clients, clientUserName r' = clientUserName r → r' = r) :
    (clientUserName r ∈ superUserList iu s ↔
      containsSub r.extraUserRoles "admin" = true ∧
        (s.relationData.lookup (clientUserName r)).isSome = true)
    ∧ (∀ u ∈ iu, u ∈ superUserList iu s)
    ∧ (∃ l, List.Sorted pyLeR l ∧
        (∀ x, x ∈ l ↔ ∃ u ∈ superUserList iu s, x = "User:" ++ u) ∧
        super_users iu s = String.intercalate ";" l) := by
  refine ⟨?_, ?_, ?_⟩
  · rw [mem_superUserList]
    constructor
    · rintro (hin | ⟨r', hr', hcond, heq⟩)
      · exact absurd hin hni
      · cases huniq r' hr' heq.symm
        simp only [superUserCond, Bool.and_eq_true] at hcond
        exact ⟨hcond.1.2, hcond.2⟩
    · rintro ⟨ha, hp⟩
      exact Or.inr ⟨r, hr, by simp [superUserCond, happ, ha, hp], rfl⟩
  · intro u hu
    rw [mem_superUserList]
    exact Or.inl hu
  · refine ⟨pysorted ((superUserList iu s).map (fun u => "User:" ++ u)),
      pysorted_sorted _, ?_, rfl⟩
    intro x
    rw [(pysorted_perm _).mem_iff]
    simp [List.mem_map, eq_comm]

/-- C6 (witness): one admin client with a generated password lands in
the set; the internal users `sync` and `admin` are present; the joined
output exists as stated. -/
theorem super_users_spec_witness :
    (ClientRel.mk 5 true "admin" ∈
      (ClusterStateR.mk true true true false false none true false []
        [ClientRel.mk 5 true "admin"] [("relation-5", "pw")]).clients)
    ∧ (clientUserName (ClientRel.mk 5 true "admin") ∈ superUserList ["sync", "admin"]
        (ClusterStateR.mk true true true false false none true false []
          [ClientRel.mk 5 true "admin"] [("relation-5", "pw")])) :=
  ⟨by decide,
    ((super_users_spec ["sync", "admin"]
      (ClusterStateR.mk true true true false false none true false []
        [ClientRel.mk 5 true "admin"] [("relation-5", "pw")])
      (ClientRel.mk 5 true "admin")
      (by decide) (by decide) (by decide) (by decide)).1).mpr (by decide)⟩

/-- C7: with the peer relation formed, `bootstrap_server` is the
comma-joined sorted list of one entry per broker — the internal
`host:port` entries, the port chosen by the active security mechanism,
when no exposure is configured, and each broker's external address
instead when `expose-nodeport` is set. -/
theorem bootstrap_server_spec (s : ClusterStateR) (hp : s.peerRelation = true) :
    (s.exposeNodeport = false →
      ∃ l, List.Sorted pyLeR l ∧ l.Perm (s.brokers.map (internalBootstrapEntry s)) ∧
        bootstrap_server s = String.intercalate "," l)
    ∧ (s.exposeNodeport = true →
      ∃ l, List.Sorted pyLeR l ∧ l.Perm (s.brokers.map (fun b => b.bootstrapServerExternal)) ∧
        bootstrap_server s = String.intercalate "," l) := by
  constructor
  · intro he
    exact ⟨pysorted (s.brokers.map (internalBootstrapEntry s)), pysorted_sorted _,
      pysorted_perm _, by simp [bootstrap_server, hp, he]⟩
  · intro he
    exact ⟨pysorted (s.brokers.map (fun b => b.bootstrapServerExternal)), pysorted_sorted _,
      pysorted_perm _, by simp [bootstrap_server, bootstrap_servers_external, hp, he]⟩

/-- C7 (witness): two brokers, no exposure configured — the sorted,
comma-joined internal entry list exists as stated. -/
theorem bootstrap_server_spec_witness :
    (ClusterStateR.mk true true true false false none true false
        [BrokerR.mk "kafka-1.ep" "n1:31001", BrokerR.mk "kafka-0.ep" "n0:31000"] [] []).peerRelation
      = true
    ∧ (ClusterStateR.mk true true true false false none true false
        [BrokerR.mk "kafka-1.ep" "n1:31001", BrokerR.mk "kafka-0.ep" "n0:31000"] [] []).exposeNodeport
      = false
    ∧ ∃ l, List.Sorted pyLeR l ∧
        l.Perm ((ClusterStateR.mk true true true false false none true false
          [BrokerR.mk "kafka-1.ep" "n1:31001", BrokerR.mk "kafka-0.ep" "n0:31000"] [] []).brokers.map
            (internalBootstrapEntry (ClusterStateR.mk true true true false false none true false
              [BrokerR.mk "kafka-1.ep" "n1:31001", BrokerR.mk "kafka-0.ep" "n0:31000"] [] []))) ∧
        bootstrap_server (ClusterStateR.mk true true true false false none true false
          [BrokerR.mk "kafka-1.ep" "n1:31001", BrokerR.mk "kafka-0.ep" "n0:31000"] [] [])
          = String.intercalate "," l :=
  ⟨rfl, rfl,
    (bootstrap_server_spec
      (ClusterStateR.mk true true true false false none true false
        [BrokerR.mk "kafka-1.ep" "n1:31001", BrokerR.mk "kafka-0.ep" "n0:31000"] [] [])
      rfl).1 rfl⟩

/-- C8: when the first failing exec of `set_truststore` (or the keytool
exec of `import_cert`) fails with a non-empty stdout containing
`"already exists"`, the step returns normally; a failure without that
signature is re-raised with its stdout. -/
theorem truststore_idempotent (s : String) (e2 e3 : ExecOutcome) (out : Option String)
    (hsig : containsSub s "already exists" = true) (hne : s ≠ "")
    (hother : alreadyExistsSig out = false) :
    set_truststore (ExecOutcome.fail (some s)) e2 e3 = TLSResult.success
    ∧ import_cert (ExecOutcome.fail (some s)) = TLSResult.success
    ∧ set_truststore (ExecOutcome.fail out) e2 e3 = TLSResult.raised out
    ∧ import_cert (ExecOutcome.fail out) = TLSResult.raised out := by
  have hsig' : alreadyExistsSig (some s) = true := by
    simp [alreadyExistsSig, hsig, hne]
  refine ⟨?_, ?_, ?_, ?_⟩ <;>
    simp [set_truststore, import_cert, firstFailure, hsig', hother]

/-- C8 (witness): keytool's actual "already exists" message is
swallowed by both steps, while an unrelated keytool error is re-raised
by both. -/
theorem truststore_idempotent_witness :
    set_truststore
      (ExecOutcome.fail (some "keytool error: java.lang.Exception: Certificate not imported, alias <ca> already exists"))
      ExecOutcome.ok ExecOutcome.ok = TLSResult.success
    ∧ import_cert
        (ExecOutcome.fail (some "keytool error: java.lang.Exception: Certificate not imported, alias <ca> already exists"))
        = TLSResult.success
    ∧ set_truststore
        (ExecOutcome.fail (some "keytool error: java.lang.Exception: Input not an X.509 certificate"))
        ExecOutcome.ok ExecOutcome.ok
        = TLSResult.raised (some "keytool error: java.lang.Exception: Input not an X.509 certificate")
    ∧ import_cert
        (ExecOutcome.fail (some "keytool error: java.lang.Exception: Input not an X.509 certificate"))
        = TLSResult.raised (some "keytool error: java.lang.Exception: Input not an X.509 certificate") :=
  ⟨(truststore_idempotent _ ExecOutcome.ok ExecOutcome.ok
      (some "keytool error: java.lang.Exception: Input not an X.509 certificate")
      (by decide) (by decide) (by decide)).1,
    (truststore_idempotent _ ExecOutcome.ok ExecOutcome.ok
      (some "keytool error: java.lang.Exception: Input not an X.509 certificate")
      (by decide) (by decide) (by decide)).2.1,
    (truststore_idempotent "keytool error: java.lang.Exception: Certificate not imported, alias <ca> already exists"
      ExecOutcome.ok ExecOutcome.ok _
      (by decide) (by decide) (by decide)).2.2.1,
    (truststore_idempotent "keytool error: java.lang.Exception: Certificate not imported, alias <ca> already exists"
      ExecOutcome.ok ExecOutcome.ok _
      (by decide) (by decide) (by decide)).2.2.2⟩

/-- C9: in the reconciliation of the exposure Services, a
permission-denial response never raises out of the pass (it is merely
reported), and a port-collision response on create is swallowed exactly
when the already-existing allocation matches the intended port,
otherwise it raises. -/
theorem reconcile_service_spec (p : Nat) (o : ApplyOutcome) (e : Nat) :
    (o = ApplyOutcome.forbidden → reconcile_service p o ≠ ReconcileResult.raisedError)
    ∧ (reconcile_service p (ApplyOutcome.portConflict e) = ReconcileResult.applied ↔ e = p)
    ∧ (e ≠ p → reconcile_service p (ApplyOutcome.portConflict e) = ReconcileResult.raisedError) := by
  refine ⟨?_, ?_, ?_⟩
  · rintro rfl
    simp [reconcile_service]
  · by_cases he : e = p <;> simp [reconcile_service, he]
  · intro he
    simp [reconcile_service, he]

/-- C9 (witness): at intended port 31001, a permission denial does not
raise, a collision with an existing allocation at 31001 is swallowed,
and a collision with 31002 raises. -/
theorem reconcile_service_spec_witness :
    reconcile_service 31001 ApplyOutcome.forbidden ≠ ReconcileResult.raisedError
    ∧ reconcile_service 31001 (ApplyOutcome.portConflict 31001) = ReconcileResult.applied
    ∧ reconcile_service 31001 (ApplyOutcome.portConflict 31002) = ReconcileResult.raisedError :=
  ⟨(reconcile_service_spec 31001 ApplyOutcome.forbidden 0).1 rfl,
    (reconcile_service_spec 31001 ApplyOutcome.forbidden 31001).2.1.mpr rfl,
    (reconcile_service_spec 31001 ApplyOutcome.forbidden 31002).2.2 (by decide)⟩

/-- C10: when the Service lookup fails with an `ApiError`, `node_port`
returns the sentinel `-1` instead of raising; it raises exactly when the
Service resolves but has no spec or no (truthy) ports. -/
theorem node_port_spec (lr : LookupOutcome) :
    (lr = LookupOutcome.apiError → node_port lr = Except.ok (-1))
    ∧ ((∃ e, node_port lr = Except.error e) ↔
        ∃ svc, lr = LookupOutcome.found svc ∧
          (svc.spec = none ∨
            ∃ sp, svc.spec = some sp ∧ pyTruthyPorts sp.ports = false)) := by
  constructor
  · rintro rfl
    rfl
  · cases lr with
    | apiError => simp [node_port, serviceProp]
    | found svc =>
      cases svc with
      | mk sp? =>
        cases sp? with
        | none => simp [node_port, serviceProp]
        | some sp =>
          by_cases hp : pyTruthyPorts sp.ports <;> simp [node_port, serviceProp, hp]

/-- C10 (witness): the ApiError case yields `-1`, and a Service with a
missing spec yields an error. -/
theorem node_port_spec_witness :
    node_port LookupOutcome.apiError = Except.ok (-1)
    ∧ ∃ e, node_port (LookupOutcome.found (ServiceK8s.mk none)) = Except.error e :=
  ⟨(node_port_spec LookupOutcome.apiError).1 rfl,
    (node_port_spec (LookupOutcome.found (ServiceK8s.mk none))).2.mpr
      ⟨ServiceK8s.mk none, rfl, Or.inl rfl⟩⟩
